import Mathlib

set_option maxHeartbeats 1000000

/-! Shallow embedding of the DSTY property finder listing pipeline
    (`crawler.py`, `improved_crawler.py`, `app.py`): the Japanese price,
    walk-time and layout parsers, the two scoring functions, the item
    parsers and the ranked database view, together with the spec-level
    descriptions they are compared against. -/

/-- Characters relevant to the listing texts that the parsers inspect:
    decimal digits, the decimal point, 万, 円, comma-like separators
    (`,` and `、`), whitespace, 徒, 歩, 分, the layout letters `L` `D` `K`,
    and a catch-all for every other character. -/
inductive Ch where
  | digit (d : Fin 10)
  | dot
  | man
  | yen
  | comma
  | space
  | toChar
  | hoChar
  | minChar
  | lL
  | lD
  | lK
  | other
deriving DecidableEq

/-- A fragment of Japanese listing text. -/
abbrev PText := List Ch

/-- Value of a digit string read left to right. -/
def digitsToNat (ds : List (Fin 10)) : Nat :=
  ds.foldl (fun acc d => 10 * acc + d.val) 0

/-- A parsed decimal literal `ip.fp` with `fl` fractional digits, kept
    exact so that the `* 10000` conversions of the source are integer
    computations (the concrete listing amounts are exactly representable
    as Python floats, so exact arithmetic agrees with the source). -/
structure PNum where
  ip : Nat
  fp : Nat
  fl : Nat
deriving DecidableEq

/-- `int(amount * 10000)` of the source for an amount `ip + fp / 10^fl`. -/
def PNum.timesTenThousand (q : PNum) : Nat :=
  q.ip * 10000 + q.fp * 10000 / 10 ^ q.fl

/-- `int(amount)` of the source (truncation of a non-negative amount). -/
def PNum.trunc (q : PNum) : Nat := q.ip

/-- The `amount < 100` test of the source (the fractional part is below 1). -/
def PNum.ltHundred (q : PNum) : Bool := q.ip < 100

/-- The shared conversion of `improved_crawler.extract_price`: a matched
    amount below 100 is taken as 万円, otherwise verbatim. -/
def manyRule (q : PNum) : Nat :=
  if q.ltHundred then q.timesTenThousand else q.trunc

/-- Maximal run of digits at the head of the text, with the rest. -/
def takeDigits : PText → List (Fin 10) × PText
  | Ch.digit d :: rest =>
      let p := takeDigits rest
      (d :: p.1, p.2)
  | s => ([], s)

/-- Greedy parse of the regex `\d+\.?\d*` at the head of the text. -/
def parseNumAt (s : PText) : Option (PNum × PText) :=
  let p := takeDigits s
  if p.1.isEmpty then none
  else
    match p.2 with
    | Ch.dot :: r2 =>
        let q := takeDigits r2
        some (⟨digitsToNat p.1, digitsToNat q.1, q.1.length⟩, q.2)
    | r1 => some (⟨digitsToNat p.1, 0, 0⟩, r1)

/-- Leftmost match of an anchored matcher, as `re.search`/`re.findall`
    deliver their first result. -/
def findFirst (m : PText → Option α) : PText → Option α
  | [] => none
  | c :: rest =>
    match m (c :: rest) with
    | some v => some v
    | none => findFirst m rest

/-- Anchored `(\d+\.?\d*)万`. -/
def matchMan (s : PText) : Option PNum :=
  match parseNumAt s with
  | some (q, Ch.man :: _) => some q
  | _ => none

/-- Anchored `(\d{6,})`. -/
def matchSix (s : PText) : Option Nat :=
  let p := takeDigits s
  if 6 ≤ p.1.length then some (digitsToNat p.1) else none

/-- Anchored `(\d+\.?\d*)`. -/
def matchNum (s : PText) : Option PNum :=
  match parseNumAt s with
  | some (q, _) => some q
  | none => none

/-- Anchored `(\d+)分`. -/
def matchMinutes (s : PText) : Option Nat :=
  match takeDigits s with
  | ([], _) => none
  | (ds, Ch.minChar :: _) => some (digitsToNat ds)
  | _ => none

/-- Anchored `徒歩(\d+)分`. -/
def matchTohoMinutes : PText → Option Nat
  | Ch.toChar :: Ch.hoChar :: rest => matchMinutes rest
  | _ => none

/-- Anchored `\d+` followed by a literal layout suffix, returning the
    matched text, as the `(\d+LDK)`-style fallbacks of `extract_rooms`. -/
def matchLayout (suf : PText) (s : PText) : Option PText :=
  let p := takeDigits s
  if p.1.isEmpty then none
  else if suf.isPrefixOf p.2 then some (p.1.map Ch.digit ++ suf) else none

/-- The character class `[万円,、\s]` removed by
    `improved_crawler.extract_price`. -/
def strippedChar (c : Ch) : Bool :=
  match c with
  | Ch.man => true
  | Ch.yen => true
  | Ch.comma => true
  | Ch.space => true
  | _ => false

/-- `re.sub(r'[万円,、\s]', '', price_text)` of the improved crawler. -/
def Improved.cleanText (s : PText) : PText := s.filter (fun c => !(strippedChar c))

/-- `price_text.replace('万', '').replace('円', '')` of the classic crawler. -/
def Crawler.stripManYen (s : PText) : PText :=
  s.filter (fun c =>
    match c with
    | Ch.man => false
    | Ch.yen => false
    | _ => true)

/-- `crawler.DStyPropertyCrawler.extract_price`: first number of the text
    with 万 and 円 removed, always converted as 万円. -/
def Crawler.extract_price (s : PText) : Nat :=
  match findFirst matchNum (Crawler.stripManYen s) with
  | some q => q.timesTenThousand
  | none => 0

/-- `improved_crawler.ImprovedDStyPropertyCrawler.extract_price`: strips
    `[万円,、\s]`, then tries `(\d+\.?\d*)万`, `(\d{6,})`, `(\d+\.?\d*)`
    in order, converting the first match with the below-100 rule. -/
def Improved.extract_price (s : PText) : Nat :=
  let clean := Improved.cleanText s
  match findFirst matchMan clean with
  | some q => manyRule q
  | none =>
    match findFirst matchSix clean with
    | some n => manyRule ⟨n, 0, 0⟩
    | none =>
      match findFirst matchNum clean with
      | some q => manyRule q
      | none => 0

/-- `crawler.DStyPropertyCrawler.extract_walk_time`: first `(\d+)分`
    match, defaulting to 99. -/
def Crawler.extract_walk_time (s : PText) : Nat :=
  match findFirst matchMinutes s with
  | some n => n
  | none => 99

/-- `improved_crawler.ImprovedDStyPropertyCrawler.extract_walk_time`:
    first `徒歩(\d+)分`, then first `(\d+)分`, defaulting to 10. -/
def Improved.extract_walk_time (s : PText) : Nat :=
  match findFirst matchTohoMinutes s with
  | some n => n
  | none =>
    match findFirst matchMinutes s with
    | some n => n
    | none => 10

/-- The priority and route entry of a `target_areas` value (the
    site-specific search codes are crawler plumbing and unused by the
    scoring pipeline). -/
structure AreaData where
  priority : Int
  route : String
deriving DecidableEq

/-- `crawler.DStyPropertyCrawler.target_areas`: station name with its
    priority and DSTY bus route. -/
def Crawler.target_areas : List (String × AreaData) :=
  [("田園調布", ⟨10, "Pink"⟩),
   ("目黒", ⟨10, "Pink"⟩),
   ("恵比寿", ⟨9, "Pink"⟩),
   ("等々力", ⟨8, "Yellow"⟩),
   ("尾山台", ⟨8, "Yellow"⟩),
   ("都立大学", ⟨8, "Yellow"⟩),
   ("三軒茶屋", ⟨7, "Green"⟩),
   ("駒沢大学", ⟨7, "Green"⟩),
   ("仲町台", ⟨6, "School"⟩)]

/-- `improved_crawler.ImprovedDStyPropertyCrawler.target_areas`. -/
def Improved.target_areas : List (String × AreaData) :=
  [("田園調布", ⟨10, "Pink"⟩),
   ("目黒", ⟨10, "Pink"⟩),
   ("恵比寿", ⟨9, "Pink"⟩),
   ("等々力", ⟨8, "Yellow"⟩),
   ("尾山台", ⟨8, "Yellow"⟩),
   ("三軒茶屋", ⟨7, "Green"⟩)]

def Crawler.min_rent : Nat := 250000

def Crawler.max_rent : Nat := 350000

def Improved.min_rent : Nat := 250000

def Improved.max_rent : Nat := 350000

/-- The layout text `3LDK`. -/
def t3LDK : PText := [Ch.digit 3, Ch.lL, Ch.lD, Ch.lK]

/-- The layout text `2LDK`. -/
def t2LDK : PText := [Ch.digit 2, Ch.lL, Ch.lD, Ch.lK]

/-- The layout text `4LDK`. -/
def t4LDK : PText := [Ch.digit 4, Ch.lL, Ch.lD, Ch.lK]

/-- The single character `3`, for the substring test `"3" in rooms`. -/
def tThree : PText := [Ch.digit 3]

def tLDK : PText := [Ch.lL, Ch.lD, Ch.lK]

def tDK : PText := [Ch.lD, Ch.lK]

def tK : PText := [Ch.lK]

/-- Stands for the literal text `Unknown` (it contains no digit and no
    layout letter, which is all the scorer inspects). -/
def unknownRooms : PText := List.replicate 7 Ch.other

/-- The Python substring test `pat in s`. -/
def containsSub (pat : PText) : PText → Bool
  | [] => pat.isEmpty
  | c :: rest => pat.isPrefixOf (c :: rest) || containsSub pat rest

/-- Price component of `crawler.calculate_score` with its reasons. -/
def Crawler.priceScore (price : Nat) : Int × List String :=
  if 280000 ≤ price ∧ price ≤ 320000 then (25, ["Perfect price range"])
  else if 250000 ≤ price ∧ price ≤ 350000 then (20, ["Good price"])
  else (0, [])

/-- Room component of `crawler.calculate_score` with its reasons. -/
def Crawler.roomScore (rooms : PText) : Int × List String :=
  if rooms = t3LDK then (20, ["Perfect 3LDK layout"])
  else if rooms = t2LDK then (15, ["Good 2LDK layout"])
  else if containsSub tThree rooms then (18, ["3-room layout"])
  else (0, [])

/-- Walk-time component of `crawler.calculate_score` with its reasons. -/
def Crawler.walkScore (walk : Nat) : Int × List String :=
  if walk ≤ 5 then (15, ["Very close to station"])
  else if walk ≤ 10 then (10, ["Close to station"])
  else if walk ≤ 15 then (5, ["Acceptable walk"])
  else (0, [])

/-- Bus-route bonus of `crawler.calculate_score` with its reasons. -/
def Crawler.routeScore (route : String) : Int × List String :=
  if route = "Pink" then (10, ["Premium Pink Route access"])
  else if route = "Yellow" then (8, ["Excellent Yellow Route access"])
  else if route = "Green" then (6, ["Good Green Route access"])
  else (0, [])

/-- A property as assembled by `crawler.parse_property_item`. -/
structure Crawler.PropertyData where
  title : String
  price : Nat
  rooms : PText
  location : String
  station : String
  walk_minutes : Nat
  property_url : String
  found_date : String
  area_priority : Int
  route_type : String
  score : Int
  reasons : List String
deriving DecidableEq

/-- `crawler.DStyPropertyCrawler.calculate_score`: sum of the price,
    room, area-priority, walk-time and route components (no clamp), with
    the reason strings accumulated in evaluation order. -/
def Crawler.calculate_score (pd : Crawler.PropertyData) (area : AreaData) :
    Int × List String :=
  let pr := Crawler.priceScore pd.price
  let ro := Crawler.roomScore pd.rooms
  let prio : Int × List String :=
    (area.priority, ["Priority area: " ++ area.route ++ " Route"])
  let wa := Crawler.walkScore pd.walk_minutes
  let rt := Crawler.routeScore area.route
  (pr.1 + ro.1 + prio.1 + wa.1 + rt.1, pr.2 ++ ro.2 ++ prio.2 ++ wa.2 ++ rt.2)

/-- The fields `crawler.parse_property_item` reads from one Suumo HTML
    cassette item: each `find` result is an optional text. -/
structure SuumoItem where
  title : Option String
  priceText : Option PText
  rooms : Option PText
  detailCol : Option String
  walkText : Option PText
  href : Option String
deriving DecidableEq

/-- URL assembly of `crawler.parse_property_item`: prefix the relative
    link with the site, or leave the URL empty when no link is found. -/
def Crawler.urlOf (item : SuumoItem) : String :=
  match item.href with
  | some h => "https://suumo.jp" ++ h
  | none => ""

/-- `crawler.DStyPropertyCrawler.parse_property_item`: reject the item
    when the price element is missing or the extracted price is outside
    `[min_rent, max_rent]`; otherwise assemble and score the record. -/
def Crawler.parse_property_item (item : SuumoItem) (area_name : String)
    (area : AreaData) (now : String) : Option Crawler.PropertyData :=
  match item.priceText with
  | none => none
  | some pt =>
    let price := Crawler.extract_price pt
    if Crawler.min_rent ≤ price ∧ price ≤ Crawler.max_rent then
      let base : Crawler.PropertyData :=
        { title := item.title.getD ("No title")
          price := price
          rooms := item.rooms.getD unknownRooms
          location := item.detailCol.getD area_name
          station := area_name
          walk_minutes := Crawler.extract_walk_time (item.walkText.getD [])
          property_url := Crawler.urlOf item
          found_date := now
          area_priority := area.priority
          route_type := area.route
          score := 0
          reasons := [] }
      let sc := Crawler.calculate_score base area
      some { base with score := sc.1, reasons := sc.2 }
    else none

/-- Price component of `calculate_enhanced_score` with its reasons. -/
def Improved.priceScore (price : Nat) : Int × List String :=
  if 280000 ≤ price ∧ price ≤ 320000 then (30, ["Perfect price range (¥280k-320k)"])
  else if 250000 ≤ price ∧ price ≤ 350000 then (25, ["Good price range"])
  else if price < 250000 then (20, ["Great value - under budget"])
  else (-5, ["Over budget"])

/-- Room component of `calculate_enhanced_score` with its reasons. -/
def Improved.roomScore (rooms : PText) : Int × List String :=
  if containsSub t3LDK rooms then (25, ["Perfect family layout (3LDK)"])
  else if containsSub t2LDK rooms then (20, ["Good layout (2LDK)"])
  else if containsSub tThree rooms then (22, ["3-room layout"])
  else (0, [])

/-- Route reason of `calculate_enhanced_score` (the priority points are
    added separately and unconditionally). -/
def Improved.routeReason (route : String) : List String :=
  if route = "Pink" then ["Premium Pink Route - excellent bus access"]
  else if route = "Yellow" then ["Excellent Yellow Route - great for families"]
  else if route = "Green" then ["Good Green Route - spacious area"]
  else []

/-- Walk-time component of `calculate_enhanced_score` with its reasons. -/
def Improved.walkScore (walk : Nat) : Int × List String :=
  if walk ≤ 5 then (15, ["Very close to station (≤5 min)"])
  else if walk ≤ 10 then (12, ["Close to station (≤10 min)"])
  else if walk ≤ 15 then (8, ["Acceptable walk (≤15 min)"])
  else (0, [])

/-- Source bonus of `calculate_enhanced_score` with its reasons. -/
def Improved.sourceScore (source : String) : Int × List String :=
  if source = "Suumo" then (5, ["High-quality Suumo listing"])
  else if source = "Homes.co.jp" ∨ source = "AtHome" then
    (3, ["Verified " ++ source ++ " listing"])
  else (0, [])

/-- A property as assembled by `improved_crawler.parse_suumo_item`. -/
structure Improved.PropertyData where
  title : String
  price : Nat
  rooms : PText
  location : String
  station : String
  walk_minutes : Nat
  property_url : String
  image_url : String
  found_date : String
  source : String
  area_priority : Int
  route_type : String
  score : Int
  reasons : List String
deriving DecidableEq

/-- `improved_crawler.ImprovedDStyPropertyCrawler.calculate_enhanced_score`:
    sum of the price, room, area-priority, walk-time and source components,
    clamped to `[0, 100]` by `min(100, max(0, score))`, with the reasons
    accumulated in evaluation order. -/
def Improved.calculate_enhanced_score (pd : Improved.PropertyData)
    (area : AreaData) : Int × List String :=
  let pr := Improved.priceScore pd.price
  let ro := Improved.roomScore pd.rooms
  let wa := Improved.walkScore pd.walk_minutes
  let so := Improved.sourceScore pd.source
  let total := pr.1 + ro.1 + area.priority + wa.1 + so.1
  (min 100 (max 0 total),
   pr.2 ++ ro.2 ++ Improved.routeReason area.route ++ wa.2 ++ so.2)

/-- The fields `improved_crawler.parse_suumo_item` reads from one item:
    the texts of the selector hits (prices in selector order) and the
    whole item text used by the regex fallbacks. -/
structure ImpItem where
  title : Option String
  priceTexts : List PText
  roomsText : Option PText
  locationText : Option String
  fullText : PText
  href : Option String
  imgSrc : Option String
deriving DecidableEq

/-- `improved_crawler.extract_rooms`: selector hit, else first of
    `(\d+LDK)`, `(\d+DK)`, `(\d+K)` over the item text, else `Unknown`. -/
def Improved.extract_rooms (item : ImpItem) : PText :=
  match item.roomsText with
  | some r => r
  | none =>
    match findFirst (matchLayout tLDK) item.fullText with
    | some m => m
    | none =>
      match findFirst (matchLayout tDK) item.fullText with
      | some m => m
      | none =>
        match findFirst (matchLayout tK) item.fullText with
        | some m => m
        | none => unknownRooms

/-- `improved_crawler.extract_url`: a relative Suumo link is made
    absolute; a missing link yields the empty URL. -/
def Improved.extract_url (href : Option String) (source : String) : String :=
  match href with
  | some h =>
    if source = "suumo" ∧ !(h.startsWith ("http")) then "https://suumo.jp" ++ h
    else h
  | none => ""

/-- The price-selector loop of `parse_suumo_item`: the first selector
    text whose extracted price is positive, else 0. -/
def Improved.firstPositivePrice : List PText → Nat
  | [] => 0
  | t :: rest =>
    let p := Improved.extract_price t
    if 0 < p then p else Improved.firstPositivePrice rest

/-- `improved_crawler.ImprovedDStyPropertyCrawler.parse_suumo_item`:
    reject when no title or no positive price; otherwise assemble and
    score the record (an empty rooms text falls back to `Unknown`). -/
def Improved.parse_suumo_item (item : ImpItem) (area_name : String)
    (area : AreaData) (now : String) : Option Improved.PropertyData :=
  match item.title with
  | none => none
  | some title =>
    let price := Improved.firstPositivePrice item.priceTexts
    if price = 0 then none
    else
      let rooms0 := Improved.extract_rooms item
      let rooms := if rooms0.isEmpty then unknownRooms else rooms0
      let base : Improved.PropertyData :=
        { title := title
          price := price
          rooms := rooms
          location := item.locationText.getD area_name
          station := area_name
          walk_minutes := Improved.extract_walk_time item.fullText
          property_url := Improved.extract_url item.href ("suumo")
          image_url := item.imgSrc.getD ""
          found_date := now
          source := "Suumo"
          area_priority := area.priority
          route_type := area.route
          score := 0
          reasons := [] }
      let sc := Improved.calculate_enhanced_score base area
      some { base with score := sc.1, reasons := sc.2 }

/-- `improved_crawler.ImprovedDStyPropertyCrawler.parse_suumo_response`:
    parse the first 8 items and keep those whose price lies in
    `[min_rent, max_rent]`. -/
def Improved.parse_suumo_response (items : List ImpItem) (area_name : String)
    (area : AreaData) (now : String) : List Improved.PropertyData :=
  (items.take 8).filterMap (fun it =>
    match Improved.parse_suumo_item it area_name area now with
    | some pd =>
      if Improved.min_rent ≤ pd.price ∧ pd.price ≤ Improved.max_rent then some pd
      else none
    | none => none)

/-- A stored `properties` row, restricted to the columns that the ranked
    view filters and orders on. The `found_date` column holds an ISO
    timestamp text whose lexicographic order agrees with time, modelled
    as a numeric stamp with the same total order. -/
structure Row where
  rid : Nat
  score : Int
  walk_minutes : Nat
  found_date : Nat
  is_active : Bool
deriving DecidableEq

/-- Stable insertion into a sorted list: `a` goes in front of the first
    element it may precede, so equal keys keep their scan order. -/
def sInsert (le : α → α → Bool) (a : α) : List α → List α
  | [] => [a]
  | b :: l => if le a b then a :: b :: l else b :: sInsert le a l

/-- Stable sort by a total preorder, modelling an `ORDER BY` whose ties
    are left in table-scan order. -/
def sSort (le : α → α → Bool) : List α → List α
  | [] => []
  | a :: l => sInsert le a (sSort le l)

/-- The `ORDER BY score DESC` key of `crawler.get_top_properties`. -/
def Crawler.rowLe (a b : Row) : Bool := decide (b.score ≤ a.score)

/-- `crawler.DStyPropertyCrawler.get_top_properties`: active rows ordered
    by score descending, first `limit` rows. -/
def Crawler.get_top_properties (db : List Row) (limit : Nat) : List Row :=
  (sSort Crawler.rowLe (db.filter (fun r => r.is_active))).take limit

/-- The `ORDER BY score DESC, found_date DESC` key of
    `improved_crawler.get_top_properties`. -/
def Improved.rowLe (a b : Row) : Bool :=
  decide (b.score < a.score) ||
    (decide (a.score = b.score) && decide (b.found_date ≤ a.found_date))

/-- `improved_crawler.ImprovedDStyPropertyCrawler.get_top_properties`:
    active rows ordered by score descending then found date descending,
    first `limit` rows. -/
def Improved.get_top_properties (db : List Row) (limit : Nat) : List Row :=
  (sSort Improved.rowLe (db.filter (fun r => r.is_active))).take limit

/-- The price parsing rule exactly as the claim states it: first `N万`
    (N possibly fractional) multiplied by 10,000; then any 6-or-more
    digit integer verbatim; then any number, multiplied by 10,000 when
    below 100 and verbatim otherwise. -/
def Spec.extract_price (s : PText) : Nat :=
  match findFirst matchMan s with
  | some q => q.timesTenThousand
  | none =>
    match findFirst matchSix s with
    | some n => n
    | none =>
      match findFirst matchNum s with
      | some q => manyRule q
      | none => 0

/-- The walk-time rule exactly as the claim states it: first
    `徒歩(\d+)分`, then `(\d+)分`, else default 10. -/
def Spec.walkMinutes (s : PText) : Nat :=
  match findFirst matchTohoMinutes s with
  | some n => n
  | none =>
    match findFirst matchMinutes s with
    | some n => n
    | none => 10

/-- The budget component exactly as the claim states it, with the
    repository profile `sweet = [280000, 320000]`,
    `budget = [250000, 350000]`: sweet range 25, budget range 20, below
    budget 20, within `budget_max + 50000` 18, else 10. -/
def Spec.budgetPoints (p : Nat) : Int :=
  if 280000 ≤ p ∧ p ≤ 320000 then 25
  else if 250000 ≤ p ∧ p ≤ 350000 then 20
  else if p < 250000 then 20
  else if p ≤ 400000 then 18
  else 10

/-- The layout component exactly as the claim states it: contains 3LDK
    20, contains 4LDK 18, contains 2LDK 15, else 0. -/
def Spec.layoutPoints (rooms : PText) : Int :=
  if containsSub t3LDK rooms then 20
  else if containsSub t4LDK rooms then 18
  else if containsSub t2LDK rooms then 15
  else 0

/-- Amended description of `crawler.extract_price`: strip 万 and 円, take
    the first number, always convert as 万円 (so a verbatim yen amount is
    multiplied by 10,000 as well). -/
def Spec.crawlerPriceAmended (s : PText) : Nat :=
  match findFirst matchNum (Crawler.stripManYen s) with
  | some q => q.timesTenThousand
  | none => 0

/-- Amended description of `improved_crawler.extract_price`: because 万
    is stripped before the patterns run, the `N万` pattern never matches;
    effectively the first 6-or-more digit run is used (below-100 rule),
    else the first number with the below-100 rule, else 0. -/
def Spec.improvedPriceAmended (s : PText) : Nat :=
  match findFirst matchSix (Improved.cleanText s) with
  | some n => manyRule ⟨n, 0, 0⟩
  | none =>
    match findFirst matchNum (Improved.cleanText s) with
    | some q => manyRule q
    | none => 0

/-- Amended description of `crawler.extract_walk_time`: first `(\d+)分`
    match with no 徒歩 preference, defaulting to 99. -/
def Spec.crawlerWalkAmended (s : PText) : Nat :=
  match findFirst matchMinutes s with
  | some n => n
  | none => 99

/-- Amended description of the `crawler.calculate_score` budget
    component: 25 in the sweet range, 20 in the budget range, 0 otherwise
    (no below-budget or near-budget credit). -/
def Spec.crawlerBudgetAmended (p : Nat) : Int :=
  if 280000 ≤ p ∧ p ≤ 320000 then 25
  else if 250000 ≤ p ∧ p ≤ 350000 then 20
  else 0

/-- Amended description of the `calculate_enhanced_score` budget
    component: 30 in the sweet range, 25 in the budget range, 20 below
    budget, and -5 above budget. -/
def Spec.improvedBudgetAmended (p : Nat) : Int :=
  if 280000 ≤ p ∧ p ≤ 320000 then 30
  else if 250000 ≤ p ∧ p ≤ 350000 then 25
  else if p < 250000 then 20
  else -5

/-- Amended description of the `crawler.calculate_score` layout
    component: exactly `3LDK` 20, exactly `2LDK` 15, any text containing
    `3` 18, else 0. -/
def Spec.crawlerLayoutAmended (rooms : PText) : Int :=
  if rooms = t3LDK then 20
  else if rooms = t2LDK then 15
  else if containsSub tThree rooms then 18
  else 0

/-- Amended description of the `calculate_enhanced_score` layout
    component: contains `3LDK` 25, contains `2LDK` 20, contains `3` 22,
    else 0. -/
def Spec.improvedLayoutAmended (rooms : PText) : Int :=
  if containsSub t3LDK rooms then 25
  else if containsSub t2LDK rooms then 20
  else if containsSub tThree rooms then 22
  else 0

theorem Crawler.priceScore_bounds (p : Nat) :
    0 ≤ (Crawler.priceScore p).1 ∧ (Crawler.priceScore p).1 ≤ 25 := by
  unfold Crawler.priceScore
  split_ifs <;> decide

theorem Crawler.roomScore_bounds (rooms : PText) :
    0 ≤ (Crawler.roomScore rooms).1 ∧ (Crawler.roomScore rooms).1 ≤ 20 := by
  unfold Crawler.roomScore
  split_ifs <;> decide

theorem Crawler.walkScore_bounds (w : Nat) :
    0 ≤ (Crawler.walkScore w).1 ∧ (Crawler.walkScore w).1 ≤ 15 := by
  unfold Crawler.walkScore
  split_ifs <;> decide

theorem Crawler.routeScore_bounds (route : String) :
    0 ≤ (Crawler.routeScore route).1 ∧ (Crawler.routeScore route).1 ≤ 10 := by
  unfold Crawler.routeScore
  split_ifs <;> decide

theorem improved_priceScore_bounds (p : Nat) :
    -5 ≤ (Improved.priceScore p).1 ∧ (Improved.priceScore p).1 ≤ 30 := by
  unfold Improved.priceScore
  split_ifs <;> decide

theorem improved_roomScore_bounds (rooms : PText) :
    0 ≤ (Improved.roomScore rooms).1 ∧ (Improved.roomScore rooms).1 ≤ 25 := by
  unfold Improved.roomScore
  split_ifs <;> decide

theorem improved_walkScore_bounds (w : Nat) :
    0 ≤ (Improved.walkScore w).1 ∧ (Improved.walkScore w).1 ≤ 15 := by
  unfold Improved.walkScore
  split_ifs <;> decide

theorem Improved.sourceScore_bounds (src : String) :
    0 ≤ (Improved.sourceScore src).1 ∧ (Improved.sourceScore src).1 ≤ 5 := by
  unfold Improved.sourceScore
  split_ifs <;> simp

theorem Crawler.target_priority_bounds :
    ∀ pr ∈ Crawler.target_areas, 6 ≤ pr.2.priority ∧ pr.2.priority ≤ 10 := by
  decide

theorem takeDigits_suffix (s : PText) : (takeDigits s).2 <:+ s := by
  induction s with
  | nil => exact List.suffix_rfl
  | cons c t ih =>
    cases c
    case digit d => exact ih.trans (List.suffix_cons (Ch.digit d) t)
    all_goals exact List.suffix_rfl

theorem parseNumAt_rest_suffix {s : PText} {q : PNum} {r : PText}
    (h : parseNumAt s = some (q, r)) : r <:+ s := by
  unfold parseNumAt at h
  by_cases he : (takeDigits s).1.isEmpty
  · simp [he] at h
  · rw [if_neg he] at h
    rcases hp : (takeDigits s).2 with _ | ⟨c, r2⟩
    · rw [hp] at h
      injection h with h1
      injection h1 with h1a h1b
      subst h1b
      exact List.nil_suffix
    · rw [hp] at h
      have hsuf : c :: r2 <:+ s := hp ▸ takeDigits_suffix s
      cases c <;>
          (injection h with h1; injection h1 with h1a h1b; subst h1b) <;>
        first
          | exact ((takeDigits_suffix r2).trans (List.suffix_cons Ch.dot r2)).trans hsuf
          | exact hsuf

theorem matchMan_eq_none {s : PText} (h : ∀ c ∈ s, c ≠ Ch.man) :
    matchMan s = none := by
  unfold matchMan
  cases hp : parseNumAt s with
  | none => rfl
  | some pr =>
    obtain ⟨q, r⟩ := pr
    cases r with
    | nil => rfl
    | cons c r2 =>
      cases c
      case man =>
        have hmem : Ch.man ∈ s := (parseNumAt_rest_suffix hp).subset (by simp)
        exact absurd rfl (h _ hmem)
      all_goals rfl

theorem findFirst_matchMan_none {s : PText} (h : ∀ c ∈ s, c ≠ Ch.man) :
    findFirst matchMan s = none := by
  induction s with
  | nil => rfl
  | cons c t ih =>
    unfold findFirst
    rw [matchMan_eq_none h]
    exact ih (fun x hx => h x (List.mem_cons_of_mem c hx))

theorem cleanText_man_free (s : PText) : ∀ c ∈ Improved.cleanText s, c ≠ Ch.man := by
  intro c hc
  have h2 := (List.mem_filter.mp hc).2
  intro heq
  subst heq
  simp [strippedChar] at h2

theorem mem_sInsert {le : α → α → Bool} {a x : α} {l : List α} :
    x ∈ sInsert le a l ↔ x = a ∨ x ∈ l := by
  induction l with
  | nil => simp [sInsert]
  | cons b t ih =>
    unfold sInsert
    by_cases h : le a b = true
    · simp [h]
    · rw [if_neg h]
      simp only [List.mem_cons, ih]
      tauto

theorem pairwise_sInsert {le : α → α → Bool}
    (htot : ∀ a b, le a b = true ∨ le b a = true)
    (htr : ∀ a b c, le a b = true → le b c = true → le a c = true)
    (a : α) :
    ∀ l : List α, l.Pairwise (fun x y => le x y = true) →
      (sInsert le a l).Pairwise (fun x y => le x y = true) := by
  intro l
  induction l with
  | nil =>
    intro _
    simp [sInsert]
  | cons b t ih =>
    intro hp
    rw [List.pairwise_cons] at hp
    obtain ⟨hb, ht⟩ := hp
    unfold sInsert
    by_cases h : le a b = true
    · rw [if_pos h]
      refine List.Pairwise.cons ?_ (List.Pairwise.cons hb ht)
      intro c hc
      rcases List.mem_cons.mp hc with hcb | hct
      · rw [hcb]
        exact h
      · exact htr a b c h (hb c hct)
    · rw [if_neg h]
      refine List.Pairwise.cons ?_ (ih ht)
      intro c hc
      rcases mem_sInsert.mp hc with hca | hct
      · rw [hca]
        rcases htot a b with hab | hba
        · exact absurd hab h
        · exact hba
      · exact hb c hct

theorem pairwise_sSort {le : α → α → Bool}
    (htot : ∀ a b, le a b = true ∨ le b a = true)
    (htr : ∀ a b c, le a b = true → le b c = true → le a c = true) :
    ∀ l : List α, (sSort le l).Pairwise (fun x y => le x y = true) := by
  intro l
  induction l with
  | nil => simp [sSort]
  | cons a t ih => exact pairwise_sInsert htot htr a _ ih

theorem mem_sSort {le : α → α → Bool} {x : α} :
    ∀ {l : List α}, x ∈ sSort le l ↔ x ∈ l := by
  intro l
  induction l with
  | nil => simp [sSort]
  | cons a t ih =>
    unfold sSort
    rw [mem_sInsert]
    simp [ih]

theorem crawler_rowLe_total :
    ∀ a b : Row, Crawler.rowLe a b = true ∨ Crawler.rowLe b a = true := by
  intro a b
  unfold Crawler.rowLe
  simp only [decide_eq_true_eq]
  omega

theorem crawler_rowLe_trans :
    ∀ a b c : Row, Crawler.rowLe a b = true → Crawler.rowLe b c = true →
      Crawler.rowLe a c = true := by
  intro a b c hab hbc
  unfold Crawler.rowLe at *
  simp only [decide_eq_true_eq] at *
  omega

theorem improved_rowLe_total :
    ∀ a b : Row, Improved.rowLe a b = true ∨ Improved.rowLe b a = true := by
  intro a b
  unfold Improved.rowLe
  simp only [Bool.or_eq_true, Bool.and_eq_true, decide_eq_true_eq]
  rcases lt_trichotomy a.score b.score with h | h | h
  · exact Or.inr (Or.inl h)
  · rcases le_total a.found_date b.found_date with hf | hf
    · exact Or.inr (Or.inr ⟨h.symm, hf⟩)
    · exact Or.inl (Or.inr ⟨h, hf⟩)
  · exact Or.inl (Or.inl h)

theorem improved_rowLe_trans :
    ∀ a b c : Row, Improved.rowLe a b = true → Improved.rowLe b c = true →
      Improved.rowLe a c = true := by
  intro a b c hab hbc
  unfold Improved.rowLe at *
  simp only [Bool.or_eq_true, Bool.and_eq_true, decide_eq_true_eq] at *
  rcases hab with h1 | ⟨h1, h1f⟩ <;> rcases hbc with h2 | ⟨h2, h2f⟩
  · exact Or.inl (by omega)
  · exact Or.inl (by omega)
  · exact Or.inl (by omega)
  · exact Or.inr ⟨by omega, le_trans h2f h1f⟩

/-- C1: for every listing and every criteria profile of the repository,
    the score produced by `calculate_score` (crawler.py, over its
    `target_areas` profiles) and by `calculate_enhanced_score`
    (improved_crawler.py, clamped) lies in `[0, 100]`. -/
theorem C1_score_bounds :
    (∀ (pd : Crawler.PropertyData) (nm : String) (area : AreaData),
        (nm, area) ∈ Crawler.target_areas →
        0 ≤ (Crawler.calculate_score pd area).1 ∧
          (Crawler.calculate_score pd area).1 ≤ 100) ∧
    (∀ (pd : Improved.PropertyData) (area : AreaData),
        0 ≤ (Improved.calculate_enhanced_score pd area).1 ∧
          (Improved.calculate_enhanced_score pd area).1 ≤ 100) := by
  constructor
  · intro pd nm area hmem
    have hp := Crawler.priceScore_bounds pd.price
    have hr := Crawler.roomScore_bounds pd.rooms
    have hw := Crawler.walkScore_bounds pd.walk_minutes
    have hrt := Crawler.routeScore_bounds area.route
    have hprio : 6 ≤ area.priority ∧ area.priority ≤ 10 :=
      Crawler.target_priority_bounds (nm, area) hmem
    unfold Crawler.calculate_score
    dsimp only
    omega
  · intro pd area
    unfold Improved.calculate_enhanced_score
    dsimp only
    exact ⟨le_min (by norm_num) (le_max_left 0 _), min_le_left _ _⟩

def pdW : Crawler.PropertyData :=
  { title := "W", price := 300000, rooms := t3LDK, location := "L",
    station := "S", walk_minutes := 5, property_url := "U", found_date := "D",
    area_priority := 10, route_type := "Pink", score := 0, reasons := [] }

def pdW2 : Improved.PropertyData :=
  { title := "W", price := 300000, rooms := t3LDK, location := "L",
    station := "S", walk_minutes := 5, property_url := "U", image_url := "",
    found_date := "D", source := "Suumo", area_priority := 10,
    route_type := "Pink", score := 0, reasons := [] }

/-- Witness for C1 at the 田園調布 profile. -/
theorem C1_score_bounds_witness :
    0 ≤ (Crawler.calculate_score pdW ⟨10, "Pink"⟩).1 ∧
      (Crawler.calculate_score pdW ⟨10, "Pink"⟩).1 ≤ 100 :=
  C1_score_bounds.1 pdW ("田園調布") ⟨10, "Pink"⟩ (by decide)

/-- C10: `crawler.calculate_score` adds the area priority and its reason
    unconditionally, so the reasons list is never empty and the score is
    at least the priority of the area profile. -/
theorem C10_priority_unconditional :
    ∀ (pd : Crawler.PropertyData) (area : AreaData),
      (Crawler.calculate_score pd area).2 ≠ [] ∧
        area.priority ≤ (Crawler.calculate_score pd area).1 := by
  intro pd area
  have hp := Crawler.priceScore_bounds pd.price
  have hr := Crawler.roomScore_bounds pd.rooms
  have hw := Crawler.walkScore_bounds pd.walk_minutes
  have hrt := Crawler.routeScore_bounds area.route
  unfold Crawler.calculate_score
  dsimp only
  constructor
  · simp
  · omega

theorem crawler_priceScore_zero_outside {p : Nat}
    (h : p < 250000 ∨ 350000 < p) : (Crawler.priceScore p).1 = 0 := by
  unfold Crawler.priceScore
  split_ifs with h1 h2
  · exfalso
    omega
  · exfalso
    omega
  · rfl

theorem crawler_priceScore_twenty_inside {p : Nat}
    (h1 : 250000 ≤ p) (h2 : p ≤ 350000) : 20 ≤ (Crawler.priceScore p).1 := by
  unfold Crawler.priceScore
  split_ifs with ha hb
  · decide
  · decide
  · exfalso
    omega

theorem improved_priceScore_le_outside {p : Nat}
    (h : p < 250000 ∨ 350000 < p) : (Improved.priceScore p).1 ≤ 20 := by
  unfold Improved.priceScore
  split_ifs with h1 h2 h3
  · exfalso
    omega
  · exfalso
    omega
  · decide
  · decide

theorem improved_priceScore_ge_inside {p : Nat}
    (h1 : 250000 ≤ p) (h2 : p ≤ 350000) : 25 ≤ (Improved.priceScore p).1 := by
  unfold Improved.priceScore
  split_ifs with ha hb hc
  · decide
  · decide
  · exfalso
    omega
  · exfalso
    omega

theorem clamp_mono {a b : Int} (h : a ≤ b) :
    min 100 (max 0 a) ≤ min 100 (max 0 b) :=
  min_le_min le_rfl (max_le_max le_rfl h)

/-- C8: moving the price from outside `[250000, 350000]` to inside it, all
    other fields fixed, never decreases either score. -/
theorem C8_budget_monotonic :
    (∀ (pd : Crawler.PropertyData) (area : AreaData) (pOut pIn : Nat),
        (pOut < 250000 ∨ 350000 < pOut) → 250000 ≤ pIn → pIn ≤ 350000 →
        (Crawler.calculate_score { pd with price := pOut } area).1 ≤
          (Crawler.calculate_score { pd with price := pIn } area).1) ∧
    (∀ (pd : Improved.PropertyData) (area : AreaData) (pOut pIn : Nat),
        (pOut < 250000 ∨ 350000 < pOut) → 250000 ≤ pIn → pIn ≤ 350000 →
        (Improved.calculate_enhanced_score { pd with price := pOut } area).1 ≤
          (Improved.calculate_enhanced_score { pd with price := pIn } area).1) := by
  constructor
  · intro pd area pOut pIn hOut hIn1 hIn2
    have h0 := crawler_priceScore_zero_outside hOut
    have h20 := crawler_priceScore_twenty_inside hIn1 hIn2
    unfold Crawler.calculate_score
    dsimp only
    omega
  · intro pd area pOut pIn hOut hIn1 hIn2
    have hle := improved_priceScore_le_outside hOut
    have hge := improved_priceScore_ge_inside hIn1 hIn2
    unfold Improved.calculate_enhanced_score
    dsimp only
    exact clamp_mono (by omega)

/-- Witness for C8 at prices 200,000 and 360,000 moved to 300,000. -/
theorem C8_budget_monotonic_witness :
    (Crawler.calculate_score { pdW with price := 200000 } ⟨10, "Pink"⟩).1 ≤
      (Crawler.calculate_score { pdW with price := 300000 } ⟨10, "Pink"⟩).1 ∧
    (Improved.calculate_enhanced_score { pdW2 with price := 360000 } ⟨10, "Pink"⟩).1 ≤
      (Improved.calculate_enhanced_score { pdW2 with price := 300000 } ⟨10, "Pink"⟩).1 :=
  ⟨C8_budget_monotonic.1 pdW ⟨10, "Pink"⟩ 200000 300000 (Or.inl (by decide))
      (by decide) (by decide),
   C8_budget_monotonic.2 pdW2 ⟨10, "Pink"⟩ 360000 300000 (Or.inr (by decide))
      (by decide) (by decide)⟩

def s150man : PText := [Ch.digit 1, Ch.digit 5, Ch.digit 0, Ch.man]

def s300000 : PText :=
  [Ch.digit 3, Ch.digit 0, Ch.digit 0, Ch.digit 0, Ch.digit 0, Ch.digit 0]

/-- C2 counterexample: on `150万` the improved parser returns 150 where the
    claimed rule gives 1,500,000 (the 万 pattern cannot fire after the strip
    and the below-100 rule keeps 150 verbatim); on the 6-digit `300000` the
    classic parser returns 3,000,000,000 where the claimed rule keeps the
    integer verbatim. -/
theorem C2_price_rule_counterexample :
    Improved.extract_price s150man = 150 ∧
      Spec.extract_price s150man = 1500000 ∧
      Crawler.extract_price s300000 = 3000000000 ∧
      Spec.extract_price s300000 = 300000 := by
  decide

/-- C2 amended: the classic parser applies the 万円 conversion to the first
    number unconditionally, and in the improved parser the `N万` pattern is
    dead (万 is stripped first), leaving the 6-digit and any-number rules
    with the below-100 conversion. -/
theorem C2_price_rule_amended :
    (∀ s, Crawler.extract_price s = Spec.crawlerPriceAmended s) ∧
    (∀ s, Improved.extract_price s = Spec.improvedPriceAmended s) := by
  constructor
  · intro s
    rfl
  · intro s
    simp only [Improved.extract_price, Spec.improvedPriceAmended]
    rw [findFirst_matchMan_none (cleanText_man_free s)]

/-- C4 counterexample: below budget the classic budget component is 0 where
    the claim says 20, and in the sweet range the improved component is 30
    where the claim says 25. -/
theorem C4_budget_component_counterexample :
    (Crawler.priceScore 200000).1 = 0 ∧ Spec.budgetPoints 200000 = 20 ∧
      (Improved.priceScore 300000).1 = 30 ∧ Spec.budgetPoints 300000 = 25 := by
  decide

/-- C4 amended: the classic budget component is 25 on `[280k, 320k]`, 20 on
    `[250k, 350k]`, else 0; the improved one is 30, 25, 20 below budget and
    -5 above budget. -/
theorem C4_budget_component_amended :
    (∀ p, (Crawler.priceScore p).1 = Spec.crawlerBudgetAmended p) ∧
    (∀ p, (Improved.priceScore p).1 = Spec.improvedBudgetAmended p) := by
  constructor <;> intro p
  · unfold Crawler.priceScore Spec.crawlerBudgetAmended
    split_ifs <;> rfl
  · unfold Improved.priceScore Spec.improvedBudgetAmended
    split_ifs <;> rfl

/-- C5 counterexample: `4LDK` gets 0 points from the classic component where
    the claim says 18, and a text containing `3LDK` gets 25 points from the
    improved component where the claim says 20. -/
theorem C5_layout_component_counterexample :
    (Crawler.roomScore t4LDK).1 = 0 ∧ Spec.layoutPoints t4LDK = 18 ∧
      (Improved.roomScore t3LDK).1 = 25 ∧ Spec.layoutPoints t3LDK = 20 := by
  decide

/-- C5 amended: the classic layout component is 20 for exactly `3LDK`, 15
    for exactly `2LDK`, 18 for any other text containing `3`, else 0; the
    improved one is 25 / 20 / 22 for texts containing `3LDK` / `2LDK` / `3`,
    else 0; `4LDK` earns nothing in either. -/
theorem C5_layout_component_amended :
    (∀ rooms, (Crawler.roomScore rooms).1 = Spec.crawlerLayoutAmended rooms) ∧
    (∀ rooms, (Improved.roomScore rooms).1 = Spec.improvedLayoutAmended rooms) := by
  constructor <;> intro rooms
  · unfold Crawler.roomScore Spec.crawlerLayoutAmended
    split_ifs <;> rfl
  · unfold Improved.roomScore Spec.improvedLayoutAmended
    split_ifs <;> rfl

def sMixed : PText :=
  [Ch.digit 5, Ch.minChar, Ch.toChar, Ch.hoChar, Ch.digit 3, Ch.minChar]

/-- C6 counterexample: the classic extractor defaults to 99 where the claim
    says 10, and returns the first `N分` match with no 徒歩 preference. -/
theorem C6_walk_rule_counterexample :
    Crawler.extract_walk_time [] = 99 ∧ Spec.walkMinutes [] = 10 ∧
      Crawler.extract_walk_time sMixed = 5 ∧ Spec.walkMinutes sMixed = 3 := by
  decide

/-- C6 amended: the improved extractor follows the claimed rule exactly,
    while the classic one takes the first `(\d+)分` match and defaults
    to 99. -/
theorem C6_walk_rule_amended :
    (∀ s, Improved.extract_walk_time s = Spec.walkMinutes s) ∧
    (∀ s, Crawler.extract_walk_time s = Spec.crawlerWalkAmended s) :=
  ⟨fun _ => rfl, fun _ => rfl⟩

def itemNoUrl : SuumoItem :=
  { title := some "T", priceText := some [Ch.digit 3, Ch.digit 0],
    rooms := some t3LDK, detailCol := none, walkText := none, href := none }

/-- C3 counterexample: a record with no link and an in-budget price is
    accepted by `parse_property_item` with an empty URL, and the improved
    `extract_url` maps a missing link to the empty URL as well. -/
theorem C3_missing_url_accepted :
    itemNoUrl.href = none ∧
      (Crawler.parse_property_item itemNoUrl ("S") ⟨9, "Pink"⟩ ("D")).map
          (fun r => r.property_url) = some ("") ∧
      Improved.extract_url none ("suumo") = "" := by
  decide

/-- C3 amended: a record with a missing price element or a parsed price
    below 50,000 (indeed outside `[250000, 350000]`) is rejected, but a
    missing URL does not reject: the record is accepted with an empty
    `property_url`. -/
theorem C3_rejection_amended :
    ∀ (item : SuumoItem) (nm : String) (area : AreaData) (now : String),
      (item.priceText = none →
        Crawler.parse_property_item item nm area now = none) ∧
      (∀ pt, item.priceText = some pt → Crawler.extract_price pt < 50000 →
        Crawler.parse_property_item item nm area now = none) ∧
      (∀ r, Crawler.parse_property_item item nm area now = some r →
        r.property_url = Crawler.urlOf item) := by
  intro item nm area now
  refine ⟨?_, ?_, ?_⟩
  · intro h
    simp [Crawler.parse_property_item, h]
  · intro pt hpt hlow
    have hc : ¬(Crawler.min_rent ≤ Crawler.extract_price pt ∧
        Crawler.extract_price pt ≤ Crawler.max_rent) := by
      unfold Crawler.min_rent Crawler.max_rent
      omega
    simp [Crawler.parse_property_item, hpt, hc]
  · intro r h
    cases hpt : item.priceText with
    | none => simp [Crawler.parse_property_item, hpt] at h
    | some pt =>
      by_cases hc : Crawler.min_rent ≤ Crawler.extract_price pt ∧
          Crawler.extract_price pt ≤ Crawler.max_rent
      · simp [Crawler.parse_property_item, hpt, hc] at h
        subst h
        rfl
      · simp [Crawler.parse_property_item, hpt, hc] at h

def itemLowPrice : SuumoItem :=
  { title := none, priceText := some [Ch.digit 1], rooms := none,
    detailCol := none, walkText := none, href := none }

/-- Witness for the amended C3: a 10,000-yen record is rejected. -/
theorem C3_rejection_amended_witness :
    Crawler.parse_property_item itemLowPrice ("S") ⟨6, "School"⟩ ("D") = none :=
  (C3_rejection_amended itemLowPrice ("S") ⟨6, "School"⟩ ("D")).2.1
    [Ch.digit 1] rfl (by decide)

/-- C9: every record returned by `parse_property_item` and every record
    kept by the `parse_suumo_response` filter has a price inside the
    `[250000, 350000]` band. -/
theorem C9_accepted_price_band :
    (∀ (item : SuumoItem) (nm : String) (area : AreaData) (now : String)
        (r : Crawler.PropertyData),
        Crawler.parse_property_item item nm area now = some r →
        250000 ≤ r.price ∧ r.price ≤ 350000) ∧
    (∀ (items : List ImpItem) (nm : String) (area : AreaData) (now : String)
        (r : Improved.PropertyData),
        r ∈ Improved.parse_suumo_response items nm area now →
        250000 ≤ r.price ∧ r.price ≤ 350000) := by
  constructor
  · intro item nm area now r h
    cases hpt : item.priceText with
    | none => simp [Crawler.parse_property_item, hpt] at h
    | some pt =>
      by_cases hc : Crawler.min_rent ≤ Crawler.extract_price pt ∧
          Crawler.extract_price pt ≤ Crawler.max_rent
      · simp [Crawler.parse_property_item, hpt, hc] at h
        subst h
        exact ⟨hc.1, hc.2⟩
      · simp [Crawler.parse_property_item, hpt, hc] at h
  · intro items nm area now r h
    unfold Improved.parse_suumo_response at h
    rcases List.mem_filterMap.mp h with ⟨it, hit, heq⟩
    cases hp : Improved.parse_suumo_item it nm area now with
    | none => rw [hp] at heq; exact absurd heq (by simp)
    | some pd =>
      rw [hp] at heq
      dsimp only at heq
      by_cases hc : Improved.min_rent ≤ pd.price ∧ pd.price ≤ Improved.max_rent
      · rw [if_pos hc] at heq
        injection heq with heq2
        subst heq2
        exact ⟨hc.1, hc.2⟩
      · rw [if_neg hc] at heq
        exact absurd heq (by simp)

def itemW : SuumoItem :=
  { title := some "W", priceText := some [Ch.digit 3, Ch.digit 0],
    rooms := some t3LDK, detailCol := none, walkText := none,
    href := some "/w" }

def dummyCrawlerPD : Crawler.PropertyData :=
  { title := "", price := 0, rooms := [], location := "", station := "",
    walk_minutes := 0, property_url := "", found_date := "",
    area_priority := 0, route_type := "", score := 0, reasons := [] }

def recW : Crawler.PropertyData :=
  (Crawler.parse_property_item itemW ("S") ⟨10, "Pink"⟩ ("D")).getD dummyCrawlerPD

def itemW2 : ImpItem :=
  { title := some "W", priceTexts := [[Ch.digit 3, Ch.digit 0]],
    roomsText := some t3LDK, locationText := none, fullText := [],
    href := none, imgSrc := none }

def dummyImpPD : Improved.PropertyData :=
  { title := "", price := 0, rooms := [], location := "", station := "",
    walk_minutes := 0, property_url := "", image_url := "", found_date := "",
    source := "", area_priority := 0, route_type := "", score := 0,
    reasons := [] }

def recW2 : Improved.PropertyData :=
  (Improved.parse_suumo_item itemW2 ("S") ⟨10, "Pink"⟩ ("D")).getD dummyImpPD

/-- Witness for C9 on a 300,000-yen record through both pipelines. -/
theorem C9_accepted_price_band_witness :
    (250000 ≤ recW.price ∧ recW.price ≤ 350000) ∧
      (250000 ≤ recW2.price ∧ recW2.price ≤ 350000) :=
  ⟨C9_accepted_price_band.1 itemW ("S") ⟨10, "Pink"⟩ ("D") recW (by decide),
   C9_accepted_price_band.2 [itemW2] ("S") ⟨10, "Pink"⟩ ("D") recW2 (by decide)⟩

/-- C7 amended: the stored view keeps only active rows, truncates to the
    limit, and orders by score descending only (crawler.py), respectively
    score descending then found date descending (improved_crawler.py);
    ties keep table order, and neither walk minutes nor id is part of the
    key. -/
theorem C7_ranked_view_amended :
    ∀ (db : List Row) (lim : Nat),
      (∀ r ∈ Crawler.get_top_properties db lim, r.is_active = true) ∧
      (Crawler.get_top_properties db lim).Pairwise
        (fun a b => b.score ≤ a.score) ∧
      (Crawler.get_top_properties db lim).length ≤ lim ∧
      (∀ r ∈ Improved.get_top_properties db lim, r.is_active = true) ∧
      (Improved.get_top_properties db lim).Pairwise (fun a b =>
        b.score < a.score ∨
          (a.score = b.score ∧ b.found_date ≤ a.found_date)) := by
  intro db lim
  refine ⟨?_, ?_, ?_, ?_, ?_⟩
  · intro r hr
    unfold Crawler.get_top_properties at hr
    exact (List.mem_filter.mp (mem_sSort.mp ((List.take_sublist _ _).subset hr))).2
  · unfold Crawler.get_top_properties
    have hp := pairwise_sSort crawler_rowLe_total crawler_rowLe_trans
      (db.filter (fun r => r.is_active))
    exact (hp.sublist (List.take_sublist _ _)).imp (fun h => by
      simpa [Crawler.rowLe] using h)
  · unfold Crawler.get_top_properties
    exact List.length_take_le _ _
  · intro r hr
    unfold Improved.get_top_properties at hr
    exact (List.mem_filter.mp (mem_sSort.mp ((List.take_sublist _ _).subset hr))).2
  · unfold Improved.get_top_properties
    have hp := pairwise_sSort improved_rowLe_total improved_rowLe_trans
      (db.filter (fun r => r.is_active))
    exact (hp.sublist (List.take_sublist _ _)).imp (fun h => by
      simpa [Improved.rowLe, Bool.or_eq_true, Bool.and_eq_true,
        decide_eq_true_eq] using h)

def rowA : Row :=
  { rid := 1, score := 85, walk_minutes := 9, found_date := 20260101,
    is_active := true }

def rowB : Row :=
  { rid := 2, score := 85, walk_minutes := 3, found_date := 20260101,
    is_active := true }

/-- C7 counterexample: two active rows tied on score keep their table
    order in both views, so the claimed walk-minutes-ascending tie-break
    does not hold. -/
theorem C7_ranked_view_counterexample :
    Crawler.get_top_properties [rowA, rowB] 20 = [rowA, rowB] ∧
      Improved.get_top_properties [rowA, rowB] 20 = [rowA, rowB] ∧
      rowA.score = rowB.score ∧ rowB.walk_minutes < rowA.walk_minutes := by
  decide

/-- Witness for the amended C7 on a one-row table. -/
theorem C7_ranked_view_amended_witness : rowA.is_active = true :=
  (C7_ranked_view_amended [rowA] 5).1 rowA (by decide)
